import Mathlib

/-!
Verification of the rug-pull detector core against its specification.

The definitions below are a shallow embedding of the Python sources:
  - `src/backend/modules/h_ml_risk_scorer.py` (score fusion),
  - `src/backend/modules/i_honeypot_simulator.py` (honeypot simulation),
  - `src/backend/services/analysis_orchestrator.py` (orchestration).
Python floats are modelled as rationals, dicts with string keys as
association lists, and raised exceptions as explicit outcome values.
-/

/-- Python substring helper: does the pattern list lead the haystack list?
Mirrors the prefix test used by the `in` operator on strings. -/
def charListLeads : List Char → List Char → Bool
  | [], _ => true
  | _ :: _, [] => false
  | a :: ps, b :: hs => (a == b) && charListLeads ps hs

/-- Python `pat in hay` on strings: the pattern occurs contiguously somewhere. -/
def charListHas (pat : List Char) : List Char → Bool
  | [] => charListLeads pat []
  | b :: hs => charListLeads pat (b :: hs) || charListHas pat hs

/-- Python `pat in hay` for `String`s. -/
def strContainsSub (hay pat : String) : Bool :=
  charListHas pat.data hay.data

/-- Python `s.lower()`, character by character (the strings this program
lowers are ASCII). -/
def pyLower (s : String) : String :=
  ⟨s.data.map Char.toLower⟩

/-- Python string slicing `s[:n]` (clamps at the end of the string). -/
def pyTruncate (s : String) (n : Nat) : String :=
  ⟨s.data.take n⟩

/-- Python `round` to the nearest integer, ties to even (banker's rounding),
modelling `round(x)` on an exact value. -/
def roundHalfEven (x : ℚ) : ℤ :=
  if x - (⌊x⌋ : ℚ) < 1/2 then ⌊x⌋
  else if 1/2 < x - (⌊x⌋ : ℚ) then ⌊x⌋ + 1
  else if ⌊x⌋ % 2 = 0 then ⌊x⌋ else ⌊x⌋ + 1

/-- Python `round(x, 2)` on an exact value. -/
def round2 (x : ℚ) : ℚ :=
  ((roundHalfEven (100 * x) : ℤ) : ℚ) / 100

/-! ## Score fusion (`src/backend/modules/h_ml_risk_scorer.py`) -/

/-- The slice of an analyzer's result dict read by the fusion code:
`result.get("risk_score", default)` and `result.get("warnings", [])`.
`risk_score = none` models a dict without that key. -/
structure PyModuleResult where
  risk_score : Option ℚ
  warnings : List String
deriving DecidableEq

/-- Python `dict.get(k)` on an insertion-ordered string-keyed dict. -/
def dictGet {α : Type} (d : List (String × α)) (k : String) : Option α :=
  (d.find? (fun p => p.1 == k)).map (fun p => p.2)

/-- Reads `module_results.get(name, {}).get("risk_score", dflt)` (lines 149-170). -/
def getRisk (mrs : List (String × PyModuleResult)) (k : String) (dflt : ℚ) : ℚ :=
  match dictGet mrs k with
  | none => dflt
  | some r => r.risk_score.getD dflt

/-- Reads `module_results.get(name, {}).get("warnings", [])` (line 154). -/
def getWarnings (mrs : List (String × PyModuleResult)) (k : String) : List String :=
  match dictGet mrs k with
  | none => []
  | some r => r.warnings

/-- Warning filter of deal-breaker 1 (line 155):
`"bytecode" in str(w).lower() or "obfuscated" in str(w).lower()`. -/
def mentionsBytecode (w : String) : Bool :=
  strContainsSub (pyLower w) "bytecode" || strContainsSub (pyLower w) "obfuscated"

/-- The fixed module weights (lines 185-192, identical map at 97-104 and 238-245). -/
def moduleWeight (name : String) : ℚ :=
  if name = "contract_security" then 3
  else if name = "liquidity_pool" then 5/2
  else if name = "holder_analysis" then 2
  else if name = "transfer_anomaly" then 3/2
  else if name = "pattern_matching" then 1
  else if name = "tokenomics" then 1
  else 1

/-- The running sum `weighted_score` of the fusion loop (lines 194-201):
`score * weight` summed over the dict items, scores defaulting to 50. -/
def weightedScore : List (String × PyModuleResult) → ℚ
  | [] => 0
  | (n, r) :: rest => r.risk_score.getD 50 * moduleWeight n + weightedScore rest

/-- The running sum `total_weight` of the same loop. -/
def totalWeight : List (String × PyModuleResult) → ℚ
  | [] => 0
  | (n, _) :: rest => moduleWeight n + totalWeight rest

/-- Value `avg_module_score` (line 203): ratio of the two sums, 50 on an empty dict. -/
def avgModuleScore (mrs : List (String × PyModuleResult)) : ℚ :=
  if 0 < totalWeight mrs then weightedScore mrs / totalWeight mrs else 50

/-- Method `MLRiskScorer._fallback_prediction` (lines 95-115): the same weighted
average, duplicated in the source. -/
def fallbackPrediction (mrs : List (String × PyModuleResult)) : ℚ :=
  if 0 < totalWeight mrs then weightedScore mrs / totalWeight mrs else 50

/-- Possible behaviours of the ensemble model inside `MLRiskScorer.predict`
(lines 58-93): model never loaded, prediction raising, or producing a value
(any rational, covering an adversarial model). -/
inductive EnsembleState where
  | unavailable
  | raisesInPredict
  | value (q : ℚ)
deriving DecidableEq

/-- Method `MLRiskScorer.predict` (lines 58-93): an absent model or a raising
prediction both fall back to the weighted average; otherwise the model's
number is returned unchanged. -/
def mlScorerPredict : EnsembleState → List (String × PyModuleResult) → ℚ
  | .unavailable, mrs => fallbackPrediction mrs
  | .raisesInPredict, mrs => fallbackPrediction mrs
  | .value q, _ => q

/-- The dict returned by the module-level `predict` coroutine: keys
`risk_score`, `ml_score`, `module_average`, `confidence`,
`feature_importance`, and (deal-breaker branches only) `reason`. -/
structure FusionOut where
  risk_score : ℚ
  ml_score : Option ℚ
  module_average : ℚ
  confidence : ℤ
  feature_importance : List (String × ℚ)
  reason : Option String
deriving DecidableEq

/-- Deal-breaker 1 return value (lines 156-164). -/
def dealBreaker1 : FusionOut :=
  ⟨75, some 75, 75, 90, [("bytecode_unavailable", 1)],
    some "Contract bytecode unavailable or obfuscated"⟩

/-- Deal-breaker 2 return value (lines 171-179). -/
def dealBreaker2 : FusionOut :=
  ⟨70, some 70, 70, 85, [("low_liquidity_no_activity", 1)],
    some "Very low liquidity with no trading activity"⟩

/-- Condition of deal-breaker 1 (lines 153-155). -/
def db1cond (mrs : List (String × PyModuleResult)) : Prop :=
  50 ≤ getRisk mrs "contract_security" 0 ∧
    (getWarnings mrs "contract_security").any mentionsBytecode = true

/-- Condition of deal-breaker 2 (lines 167-170). -/
def db2cond (mrs : List (String × PyModuleResult)) : Prop :=
  60 ≤ getRisk mrs "liquidity_pool" 0 ∧ 30 ≤ getRisk mrs "transfer_anomaly" 0

instance (mrs : List (String × PyModuleResult)) : Decidable (db1cond mrs) := by
  unfold db1cond; infer_instance

instance (mrs : List (String × PyModuleResult)) : Decidable (db2cond mrs) := by
  unfold db2cond; infer_instance

/-- The adaptive weighting of `predict` (lines 205-219): a pair
(confidence, final score) from the ML estimate and the weighted average. -/
def adaptiveBlend (ml avg : ℚ) : ℤ × ℚ :=
  if 70 < ml ∧ 60 < avg then (90, 7/10 * ml + 3/10 * avg)
  else if |ml - avg| < 10 then (75, 3/5 * ml + 2/5 * avg)
  else (50, 3/10 * ml + 7/10 * avg)

/-- The module-level `predict` coroutine of `h_ml_risk_scorer.py`
(lines 136-232): deal-breaker short-circuits, then the adaptive blend of the
ML estimate with the weighted module average. `get_feature_importance`
returns `{}` on every path (lines 117-129), hence the empty map in the blend
branch. The source applies no clamping to `final_score`. -/
def fusionPredict (ens : EnsembleState) (mrs : List (String × PyModuleResult)) :
    FusionOut :=
  if db1cond mrs then dealBreaker1
  else if db2cond mrs then dealBreaker2
  else
    ⟨round2 (adaptiveBlend (mlScorerPredict ens mrs) (avgModuleScore mrs)).2,
     some (round2 (mlScorerPredict ens mrs)),
     round2 (avgModuleScore mrs),
     (adaptiveBlend (mlScorerPredict ens mrs) (avgModuleScore mrs)).1,
     [], none⟩

/-! ## Honeypot simulator (`src/backend/modules/i_honeypot_simulator.py`) -/

/-- One nibble of a hex string, as accepted by `int(s, 16)`. -/
def hexDigitVal (c : Char) : Option Nat :=
  if '0' ≤ c ∧ c ≤ '9' then some (c.toNat - '0'.toNat)
  else if 'a' ≤ c ∧ c ≤ 'f' then some (c.toNat - 'a'.toNat + 10)
  else if 'A' ≤ c ∧ c ≤ 'F' then some (c.toNat - 'A'.toNat + 10)
  else none

/-- Python `int(s, 16)` on a plain hex-digit string; `none` models the `ValueError`
raised on an empty or non-hex string. -/
def pyIntHex (cs : List Char) : Option Nat :=
  if cs.isEmpty then none
  else cs.foldl
    (fun acc c =>
      match acc, hexDigitVal c with
      | some a, some d => some (a * 16 + d)
      | _, _ => none)
    (some 0)

/-- Hex-digit pairs to byte values; `none` models `bytes.fromhex` raising on
an odd count or a non-hex character. -/
def hexPairs : List Char → Option (List Nat)
  | [] => some []
  | [_] => none
  | a :: b :: rest =>
    match hexDigitVal a, hexDigitVal b, hexPairs rest with
    | some x, some y, some tl => some ((x * 16 + y) :: tl)
    | _, _, _ => none

/-- Python `bytes.fromhex` (space characters between digits are ignored). -/
def pyBytesFromHex (cs : List Char) : Option (List Nat) :=
  hexPairs (cs.filter (fun c => !(c == ' ')))

/-- Is a byte a UTF-8 continuation byte? -/
def utf8Cont (b : Nat) : Bool :=
  0x80 ≤ b && b ≤ 0xBF

/-- Allowed second byte after a three-byte lead (excludes overlong forms and
surrogates, as CPython's decoder does). -/
def utf8SecondE (b c1 : Nat) : Bool :=
  if b = 0xE0 then 0xA0 ≤ c1 && c1 ≤ 0xBF
  else if b = 0xED then 0x80 ≤ c1 && c1 ≤ 0x9F
  else utf8Cont c1

/-- Allowed second byte after a four-byte lead. -/
def utf8SecondF (b c1 : Nat) : Bool :=
  if b = 0xF0 then 0x90 ≤ c1 && c1 ≤ 0xBF
  else if b = 0xF4 then 0x80 ≤ c1 && c1 ≤ 0x8F
  else utf8Cont c1

/-- Python `bytes.decode("utf-8", errors="ignore")`: a standard UTF-8 decoder that
skips the longest invalid prefix at each error and continues. -/
def utf8DecodeIgnore : List Nat → List Char
  | [] => []
  | b :: rest =>
    if b ≤ 0x7F then Char.ofNat b :: utf8DecodeIgnore rest
    else if 0xC2 ≤ b ∧ b ≤ 0xDF then
      match rest with
      | [] => []
      | c1 :: rest2 =>
        if utf8Cont c1 then
          Char.ofNat ((b - 0xC0) * 64 + (c1 - 0x80)) :: utf8DecodeIgnore rest2
        else utf8DecodeIgnore (c1 :: rest2)
    else if 0xE0 ≤ b ∧ b ≤ 0xEF then
      match rest with
      | [] => []
      | c1 :: rest2 =>
        if utf8SecondE b c1 then
          match rest2 with
          | [] => []
          | c2 :: rest3 =>
            if utf8Cont c2 then
              Char.ofNat ((b - 0xE0) * 4096 + (c1 - 0x80) * 64 + (c2 - 0x80)) ::
                utf8DecodeIgnore rest3
            else utf8DecodeIgnore (c2 :: rest3)
        else utf8DecodeIgnore (c1 :: rest2)
    else if 0xF0 ≤ b ∧ b ≤ 0xF4 then
      match rest with
      | [] => []
      | c1 :: rest2 =>
        if utf8SecondF b c1 then
          match rest2 with
          | [] => []
          | c2 :: rest3 =>
            if utf8Cont c2 then
              match rest3 with
              | [] => []
              | c3 :: rest4 =>
                if utf8Cont c3 then
                  Char.ofNat ((b - 0xF0) * 262144 + (c1 - 0x80) * 4096 +
                      (c2 - 0x80) * 64 + (c3 - 0x80)) :: utf8DecodeIgnore rest4
                else utf8DecodeIgnore (c3 :: rest4)
            else utf8DecodeIgnore (c2 :: rest3)
        else utf8DecodeIgnore (c1 :: rest2)
    else utf8DecodeIgnore rest

/-- Function `parse_revert_reason` (lines 97-145): strip an `0x` prefix, try the
standard `Error(string)` ABI encoding (selector `08c379a0`), then the table
of common revert patterns, else echo a truncated data prefix. A failing hex
parse inside the ABI branch is caught by the outer handler and yields
`"Unknown error"`. -/
def parse_revert_reason (error_data : String) : String :=
  if error_data = "" ∨ error_data = "0x" then "Unknown error (no revert data)"
  else
    let data := if error_data.startsWith "0x" then error_data.drop 2 else error_data
    let abiBranch : Option String :=
      if data.startsWith "08c379a0" then
        let string_data := data.data.drop 72
        if 64 ≤ string_data.length then
          match pyIntHex (string_data.take 64) with
          | none => some "Unknown error"
          | some len =>
            match pyBytesFromHex ((string_data.drop 64).take (len * 2)) with
            | none => some "Unknown error"
            | some bs => some ⟨utf8DecodeIgnore bs⟩
        else none
      else none
    match abiBranch with
    | some s => s
    | none =>
      let lowerData := pyLower data
      if strContainsSub lowerData "transfer_failed" then "Transfer failed"
      else if strContainsSub lowerData "insufficient_output" then "Insufficient output amount"
      else if strContainsSub lowerData "insufficient_liquidity" then "Insufficient liquidity"
      else if strContainsSub lowerData "locked" then "Trading locked"
      else if strContainsSub lowerData "unauthorized" then "Unauthorized"
      else if strContainsSub lowerData "honeypot" then "Honeypot detected"
      else "Revert (data: " ++ pyTruncate data 20 ++ "...)"

/-- Outcome of one `w3.eth.call` simulation: clean return, a
`ContractLogicError` carrying its string form, or any other exception
carrying its message. -/
inductive CallOutcome where
  | success
  | revert (errorData : String)
  | exn (msg : String)
deriving DecidableEq

/-- Is the outcome a `ContractLogicError`? -/
def isRevert : CallOutcome → Bool
  | .revert _ => true
  | _ => false

/-- Chain behaviour visible to `simulate_buy` (lines 148-218): whether the
setup (contract object, deadline, transaction build) raises, what the
swap call does, and whether `estimate_gas` succeeds. -/
structure BuyEnv where
  setupError : Option String
  callOutcome : CallOutcome
  gasEstimate : Option Nat

/-- Function `simulate_buy` (lines 148-218). A reverted call is reported as a failure
with the parsed revert reason; every other exception from the call is also a
failure with the truncated exception text (there is no special case for
insufficient-funds errors). -/
def simulate_buy (env : BuyEnv) : Bool × String × Option Nat :=
  match env.setupError with
  | some e => (false, "Setup error: " ++ pyTruncate e 100, none)
  | none =>
    match env.callOutcome with
    | .success =>
      match env.gasEstimate with
      | some g => (true, "✅ Buy simulation successful", some g)
      | none => (true, "✅ Buy simulation successful (gas estimation failed)", none)
    | .revert d => (false, "❌ Buy FAILED: " ++ parse_revert_reason d, none)
    | .exn m => (false, "❌ Buy simulation error: " ++ pyTruncate m 100, none)

/-- Value `amount_to_sell` (lines 321-333): half of the holder's balance; a zero or
unreadable balance is replaced by `100 * 10^18` wei first, and a zero half by
`10^18` wei. `none` models the `balanceOf` call raising. -/
def sellAmount (balanceOutcome : Option Nat) : Nat :=
  let balance :=
    match balanceOutcome with
    | some b => if b = 0 then 100 * 10 ^ 18 else b
    | none => 100 * 10 ^ 18
  let amt := balance / 2
  if amt = 0 then 10 ^ 18 else amt

/-- Chain behaviour visible to `simulate_sell` (lines 285-400). The approve
and swap outcomes are functions of the amount placed in the transaction.
`holderParam` is the caller-supplied holder, `foundHolder` the result of
`find_token_holder` when the caller supplied none. `setupError` models the
outer try failing at the checksum/contract-object stage, `swapBuildError`
the swap transaction build raising after the approve step. -/
structure SellEnv where
  holderParam : Option String
  foundHolder : Option String
  balanceOutcome : Option Nat
  approveOutcome : Nat → CallOutcome
  swapBuildError : Option String
  swapOutcome : Nat → CallOutcome
  swapGasEstimate : Nat → Option Nat
  setupError : Option String

/-- Function `simulate_sell` (lines 285-400). With no holder available the step is
reported as skipped-but-successful; a reverted approve aborts; otherwise
the swap of `sellAmount` is simulated and a revert is reported as sell
failure with the parsed reason, with no regard to the holder's size
(the function receives no liquidity information at all). -/
def simulate_sell (env : SellEnv) : Bool × String × Option Nat :=
  match env.holderParam.orElse (fun _ => env.foundHolder) with
  | none => (true, "⚠️ Sell simulation skipped (no token holder found)", none)
  | some _ =>
    match env.setupError with
    | some e => (false, "Setup error: " ++ pyTruncate e 100, none)
    | none =>
      let amt := sellAmount env.balanceOutcome
      match env.approveOutcome amt with
      | .revert d =>
        (false, "❌ Approve FAILED: " ++ parse_revert_reason d ++ " (Honeypot indicator!)", none)
      | _ =>
        match env.swapBuildError with
        | some e => (false, "Setup error: " ++ pyTruncate e 100, none)
        | none =>
          match env.swapOutcome amt with
          | .success =>
            match env.swapGasEstimate amt with
            | some g => (true, "✅ Sell simulation successful", some g)
            | none => (true, "✅ Sell simulation successful (gas estimation failed)", none)
          | .revert d => (false, "❌ Sell FAILED: " ++ parse_revert_reason d ++ " (HONEYPOT!)", none)
          | .exn m => (false, "❌ Sell simulation error: " ++ pyTruncate m 100, none)

/-- Outcome of the direct-transfer step as seen at the verdict site: the step
is only executed when the sell failed, and the verdict code never reads it. -/
inductive TransferOutcome where
  | notRun
  | ran (success : Bool)
deriving DecidableEq

/-- Verdict derivation of `analyze` (lines 568-598): a pair
(verdict, verdict_confidence) computed from the buy flag, the sell flag and
the sell message (a message containing "skipped" marks the sell as not
tested). The transfer outcome is in scope at the derivation site but is
never consulted. -/
def verdictOf (buySuccess sellSuccess : Bool) (sellMessage : String)
    (_t : TransferOutcome) : String × String :=
  let sellSkipped := strContainsSub (pyLower sellMessage) "skipped"
  if sellSkipped then
    if buySuccess then ("SAFE", "medium") else ("LOCKED", "high")
  else if buySuccess && sellSuccess then ("SAFE", "high")
  else if buySuccess && !sellSuccess then ("HONEYPOT", "very_high")
  else if !buySuccess && !sellSuccess then ("LOCKED", "high")
  else ("SUSPICIOUS", "medium")

/-- The verdict table as written in the specification, indexed by the
abstract outcome triple (buy succeeded, sell skipped, sell succeeded). -/
def specVerdictTable (buySuccess sellSkipped sellSuccess : Bool) : String × String :=
  if sellSkipped then
    if buySuccess then ("SAFE", "medium") else ("LOCKED", "high")
  else
    match buySuccess, sellSuccess with
    | true, true => ("SAFE", "high")
    | true, false => ("HONEYPOT", "very_high")
    | false, false => ("LOCKED", "high")
    | false, true => ("SUSPICIOUS", "medium")

/-! ## Analysis orchestrator (`src/backend/services/analysis_orchestrator.py`) -/

/-- A Python call that either returns a value or raises, carrying the
exception's string form. -/
inductive PyCall (α : Type) where
  | ok (a : α)
  | raises (msg : String)
deriving DecidableEq

/-- Parameter names of `i_honeypot_simulator.analyze` (line 449):
`async def analyze(address: str, blockchain)` - no keyword-only parameters
and no `**kwargs`. -/
def honeypotAnalyzeParams : List String := ["address", "blockchain"]

/-- The `TypeError` message Python raises for a keyword argument the callee
does not accept (modelled without the quoting around the name). -/
def typeErrorMessage (fname k : String) : String :=
  fname ++ "() got an unexpected keyword argument " ++ k

/-- Python keyword-argument binding: the call raises `TypeError` as soon as
a keyword name is not among the callee's parameters. -/
def bindKwargs (params : List String) (fname : String) (kwargNames : List String) :
    Option String :=
  match kwargNames.filter (fun k => !(params.contains k)) with
  | [] => none
  | k :: _ => some (typeErrorMessage fname k)

/-- The fallback dict built by the orchestrator's handler (lines 103-108). -/
structure OrchHoneypotFallback where
  error : String
  verdict : String
  data : List (String × String)
  warnings : List String
deriving DecidableEq

/-- Value of `honeypot_result` after step 2.5 (lines 89-108): either the
simulator's dict or the synthesized fallback. -/
inductive OrchHoneypotResult (σ : Type) where
  | simulated (r : σ)
  | fallback (f : OrchHoneypotFallback)
deriving DecidableEq

/-- Step 2.5 of `AnalysisOrchestrator.analyze` (lines 89-108): call
`honeypot_simulator.analyze(address, self.blockchain, liquidity_usd=...)`
(line 100), converting any exception - including the `TypeError` raised at
argument-binding time - into the fallback dict
`error/verdict "UNKNOWN"/data {}/warnings []`. `simBody` is what the
simulator body would return or raise if the binding succeeded. -/
def runHoneypotStep {σ : Type} (simBody : PyCall σ) : OrchHoneypotResult σ :=
  match bindKwargs honeypotAnalyzeParams "analyze" ["liquidity_usd"] with
  | some err => .fallback ⟨err, "UNKNOWN", [], []⟩
  | none =>
    match simBody with
    | .ok r => .simulated r
    | .raises e => .fallback ⟨e, "UNKNOWN", [], []⟩

/-- The slice of a module's result dict handled by `_run_modules`:
`risk_score`, `warnings`, and the `error` key of a synthesized failure. -/
structure OrchModuleDict where
  risk_score : Option ℚ
  warnings : List String
  error : Option String
deriving DecidableEq

/-- The dict substituted for a raising module (lines 228-232). -/
def moduleFailureDict (e : String) : OrchModuleDict :=
  ⟨some 50, ["Module failed: " ++ e], some e⟩

/-- The two warnings installed by the consistency rule (lines 220-223). -/
def suspiciousBytecodeWarnings : List String :=
  ["🚨 CRITICAL: Contract bytecode unavailable or obfuscated",
   "⚠️ Cannot verify contract safety - HIGH RISK"]

/-- Consistency rule of `_run_modules` (lines 215-223): only for the module
named `contract_security`, a zero (or missing) risk score together with an
empty warning list is overwritten with risk 50 and explanatory warnings. -/
def consistencyRule (name : String) (r : OrchModuleDict) : OrchModuleDict :=
  if name = "contract_security" ∧ r.risk_score.getD 0 = 0 ∧ r.warnings = [] then
    { r with risk_score := some 50, warnings := suspiciousBytecodeWarnings }
  else r

/-- Method `_run_modules` (lines 203-234): run every module in order, replace a
raising module by the failure dict, and apply the consistency rule to the
results of successful modules. -/
def runModules (mods : List (String × PyCall OrchModuleDict)) :
    List (String × OrchModuleDict) :=
  mods.map (fun p =>
    (p.1,
      match p.2 with
      | .ok r => consistencyRule p.1 r
      | .raises e => moduleFailureDict e))

/-! ## Auxiliary lemmas -/

lemma moduleWeight_pos (n : String) : 0 < moduleWeight n := by
  unfold moduleWeight; split_ifs <;> norm_num

lemma totalWeight_nonneg (mrs : List (String × PyModuleResult)) :
    0 ≤ totalWeight mrs := by
  induction mrs with
  | nil => simp [totalWeight]
  | cons p rest ih =>
    obtain ⟨n, r⟩ := p
    simpa [totalWeight] using add_nonneg (le_of_lt (moduleWeight_pos n)) ih

lemma weightedScore_bounds (mrs : List (String × PyModuleResult))
    (h : ∀ p ∈ mrs, 0 ≤ p.2.risk_score.getD 50 ∧ p.2.risk_score.getD 50 ≤ 100) :
    0 ≤ weightedScore mrs ∧ weightedScore mrs ≤ 100 * totalWeight mrs := by
  induction mrs with
  | nil => simp [weightedScore, totalWeight]
  | cons p rest ih =>
    obtain ⟨n, r⟩ := p
    have hp := h (n, r) (List.mem_cons_self _ _)
    have hrest := ih (fun q hq => h q (List.mem_cons_of_mem _ hq))
    have hw := moduleWeight_pos n
    constructor
    · simp only [weightedScore]
      exact add_nonneg (mul_nonneg hp.1 hw.le) hrest.1
    · simp only [weightedScore, totalWeight]
      have h1 : r.risk_score.getD 50 * moduleWeight n ≤ 100 * moduleWeight n :=
        mul_le_mul_of_nonneg_right hp.2 hw.le
      have h2 := hrest.2
      ring_nf
      nlinarith [h1, h2]

lemma avgModuleScore_bounds (mrs : List (String × PyModuleResult))
    (h : ∀ p ∈ mrs, 0 ≤ p.2.risk_score.getD 50 ∧ p.2.risk_score.getD 50 ≤ 100) :
    0 ≤ avgModuleScore mrs ∧ avgModuleScore mrs ≤ 100 := by
  unfold avgModuleScore
  split_ifs with htw
  · obtain ⟨h0, h1⟩ := weightedScore_bounds mrs h
    exact ⟨div_nonneg h0 htw.le, by rw [div_le_iff₀ htw]; linarith⟩
  · norm_num

lemma fallbackPrediction_eq (mrs : List (String × PyModuleResult)) :
    fallbackPrediction mrs = avgModuleScore mrs := rfl

lemma roundHalfEven_nonneg {x : ℚ} (hx : 0 ≤ x) : 0 ≤ roundHalfEven x := by
  unfold roundHalfEven
  have hf : (0:ℤ) ≤ ⌊x⌋ := Int.floor_nonneg.mpr hx
  split_ifs <;> omega

lemma roundHalfEven_le {x : ℚ} {m : ℤ} (hx : x ≤ (m : ℚ)) : roundHalfEven x ≤ m := by
  unfold roundHalfEven
  have hfm : ⌊x⌋ ≤ m := by
    have h := Int.floor_le_floor hx
    simpa using h
  have hfx : (⌊x⌋ : ℚ) ≤ x := Int.floor_le x
  split_ifs with h1 h2 h3
  · exact hfm
  all_goals {
    first
    | exact hfm
    | · have hhalf : (1:ℚ)/2 ≤ x - (⌊x⌋ : ℚ) := not_lt.mp h1
        have hlt : (⌊x⌋ : ℚ) < (m : ℚ) := by linarith
        have : ⌊x⌋ < m := by exact_mod_cast hlt
        omega }

lemma round2_nonneg {x : ℚ} (hx : 0 ≤ x) : 0 ≤ round2 x := by
  unfold round2
  have h : (0:ℤ) ≤ roundHalfEven (100 * x) := roundHalfEven_nonneg (by linarith)
  have h2 : (0:ℚ) ≤ ((roundHalfEven (100 * x) : ℤ) : ℚ) := by exact_mod_cast h
  linarith

lemma round2_le_100 {x : ℚ} (hx : x ≤ 100) : round2 x ≤ 100 := by
  unfold round2
  have h1 : 100 * x ≤ ((10000 : ℤ) : ℚ) := by push_cast; linarith
  have h2 : roundHalfEven (100 * x) ≤ 10000 := roundHalfEven_le h1
  have h3 : ((roundHalfEven (100 * x) : ℤ) : ℚ) ≤ 10000 := by exact_mod_cast h2
  linarith

lemma round2_form (x : ℚ) : ∃ k : ℤ, round2 x = (k : ℚ) / 100 :=
  ⟨roundHalfEven (100 * x), rfl⟩

lemma round2_intCast (k : ℤ) : round2 ((k : ℚ)) = (k : ℚ) := by
  unfold round2 roundHalfEven
  have h1 : (100 : ℚ) * (k : ℚ) = ((100 * k : ℤ) : ℚ) := by push_cast; ring
  rw [h1, Int.floor_intCast, sub_self, if_pos (by norm_num : (0:ℚ) < 1/2)]
  push_cast
  ring

/-- Boolean form of "every module risk score used by the weighted average
lies in [0, 100]". -/
def scoresInRange (mrs : List (String × PyModuleResult)) : Bool :=
  mrs.all (fun p => decide (0 ≤ p.2.risk_score.getD 50 ∧ p.2.risk_score.getD 50 ≤ 100))

lemma scoresInRange_spec {mrs : List (String × PyModuleResult)}
    (h : scoresInRange mrs = true) :
    ∀ p ∈ mrs, 0 ≤ p.2.risk_score.getD 50 ∧ p.2.risk_score.getD 50 ≤ 100 := by
  intro p hp
  exact of_decide_eq_true (List.all_eq_true.mp h p hp)

/-- Boolean form of "if the ensemble produces a number it lies in [0, 100]". -/
def ensembleInRange : EnsembleState → Bool
  | .value q => decide (0 ≤ q ∧ q ≤ 100)
  | _ => true

lemma mlScorerPredict_bounds (e : EnsembleState) (mrs : List (String × PyModuleResult))
    (he : ensembleInRange e = true)
    (hs : ∀ p ∈ mrs, 0 ≤ p.2.risk_score.getD 50 ∧ p.2.risk_score.getD 50 ≤ 100) :
    0 ≤ mlScorerPredict e mrs ∧ mlScorerPredict e mrs ≤ 100 := by
  cases e with
  | unavailable => simpa [mlScorerPredict, fallbackPrediction_eq] using avgModuleScore_bounds mrs hs
  | raisesInPredict => simpa [mlScorerPredict, fallbackPrediction_eq] using avgModuleScore_bounds mrs hs
  | value q => exact of_decide_eq_true he

/-! ## Claims -/

/-- Claim C1: the orchestrator invokes the honeypot simulator with the
keyword argument `liquidity_usd`, which `i_honeypot_simulator.analyze` does
not accept; the resulting `TypeError` is converted by the orchestrator's
handler into the fallback dict with verdict `UNKNOWN`, empty data and empty
warnings - whatever the simulator body would have computed, so the simulator
logic is unreachable through this call. -/
theorem c1_honeypot_call_always_falls_back (σ : Type) (simBody : PyCall σ) :
    runHoneypotStep simBody =
      .fallback ⟨typeErrorMessage "analyze" "liquidity_usd", "UNKNOWN", [], []⟩ := rfl

/-- Claim C2 (amended): when the ensemble model is unavailable or its
prediction raises (both absorbed inside `MLRiskScorer.predict`), and no
deal-breaker fires, `ml_score`, `module_average` and the final `risk_score`
all equal the rounded weighted module average - but the confidence is 75
(90 when the average exceeds 70), never 50: the confidence-50 path lives
only in the outer exception handler, which an ensemble failure cannot
reach. -/
theorem c2_unavailable_ensemble_blend (e : EnsembleState)
    (mrs : List (String × PyModuleResult))
    (he : e = .unavailable ∨ e = .raisesInPredict)
    (h1 : ¬ db1cond mrs) (h2 : ¬ db2cond mrs) :
    (fusionPredict e mrs).ml_score = some (round2 (avgModuleScore mrs)) ∧
    (fusionPredict e mrs).module_average = round2 (avgModuleScore mrs) ∧
    (fusionPredict e mrs).risk_score = round2 (avgModuleScore mrs) ∧
    (fusionPredict e mrs).confidence =
      (if 70 < avgModuleScore mrs then 90 else 75) := by
  have hml : mlScorerPredict e mrs = avgModuleScore mrs := by
    rcases he with rfl | rfl <;> rfl
  unfold fusionPredict
  rw [if_neg h1, if_neg h2, hml]
  unfold adaptiveBlend
  by_cases h70 : 70 < avgModuleScore mrs
  · have h60 : 60 < avgModuleScore mrs := by linarith
    rw [if_pos ⟨h70, h60⟩, if_pos h70]
    refine ⟨rfl, rfl, ?_, rfl⟩
    show round2 (7/10 * avgModuleScore mrs + 3/10 * avgModuleScore mrs) = _
    congr 1
    ring
  · have hand : ¬ (70 < avgModuleScore mrs ∧ 60 < avgModuleScore mrs) :=
      fun hc => h70 hc.1
    have habs : |avgModuleScore mrs - avgModuleScore mrs| < 10 := by
      rw [sub_self, abs_zero]; norm_num
    rw [if_neg hand, if_pos habs, if_neg h70]
    refine ⟨rfl, rfl, ?_, rfl⟩
    show round2 (3/5 * avgModuleScore mrs + 2/5 * avgModuleScore mrs) = _
    congr 1
    ring

/-- The all-20 scenario of the specification, in the orchestrator's module
iteration order. -/
def c2mrs : List (String × PyModuleResult) :=
  [("contract_security", ⟨some 20, []⟩), ("holder_analysis", ⟨some 20, []⟩),
   ("liquidity_pool", ⟨some 20, []⟩), ("transfer_anomaly", ⟨some 20, []⟩),
   ("pattern_matching", ⟨some 20, []⟩), ("tokenomics", ⟨some 20, []⟩)]

/-- Claim C2 counterexample: in the all-20 scenario with the ensemble
unavailable the fusion does return module_average 20, ml_score 20 and final
risk_score 20, but its confidence is 75 - not at most 50 as claimed. -/
theorem c2_all20_confidence_75_not_50 :
    (fusionPredict .unavailable c2mrs).module_average = 20 ∧
    (fusionPredict .unavailable c2mrs).ml_score = some 20 ∧
    (fusionPredict .unavailable c2mrs).risk_score = 20 ∧
    (fusionPredict .unavailable c2mrs).confidence = 75 ∧
    ¬ ((fusionPredict .unavailable c2mrs).confidence ≤ 50) := by
  have hdb1 : ¬ db1cond c2mrs := by decide
  have hdb2 : ¬ db2cond c2mrs := by decide
  have htw : totalWeight c2mrs = 11 := by
    simp [totalWeight, moduleWeight, c2mrs]
    norm_num
  have hws : weightedScore c2mrs = 220 := by
    simp [weightedScore, moduleWeight, c2mrs]
    norm_num
  have havg : avgModuleScore c2mrs = 20 := by
    rw [avgModuleScore, htw, hws]; norm_num
  have h20 : round2 (20 : ℚ) = 20 := by
    have h := round2_intCast 20; push_cast at h; exact h
  have hml : mlScorerPredict .unavailable c2mrs = 20 := by
    rw [show mlScorerPredict .unavailable c2mrs = fallbackPrediction c2mrs from rfl,
      fallbackPrediction_eq, havg]
  have hblend : adaptiveBlend 20 20 = (75, 20) := by
    unfold adaptiveBlend
    rw [if_neg (by norm_num), if_pos (by norm_num)]
    norm_num
  unfold fusionPredict
  rw [if_neg hdb1, if_neg hdb2, hml, havg, hblend]
  exact ⟨h20, by rw [h20], by simpa using h20, rfl, by norm_num⟩

/-- Witness for the amended claim C2 at the all-20 scenario. -/
theorem c2_unavailable_ensemble_blend_witness :
    (fusionPredict .unavailable c2mrs).ml_score = some (round2 (avgModuleScore c2mrs)) ∧
    (fusionPredict .unavailable c2mrs).module_average = round2 (avgModuleScore c2mrs) ∧
    (fusionPredict .unavailable c2mrs).risk_score = round2 (avgModuleScore c2mrs) ∧
    (fusionPredict .unavailable c2mrs).confidence =
      (if 70 < avgModuleScore c2mrs then 90 else 75) :=
  c2_unavailable_ensemble_blend .unavailable c2mrs (Or.inl rfl) (by decide) (by decide)

/-- Claim C3 (amended): the fusion result is rounded to two decimal places
and lies in [0,100] whenever the ensemble's estimate and all module scores
lie in [0,100]; the source applies no clamp, so an out-of-range ml_score can
push the final score outside [0,100] (see the counterexample). -/
theorem c3_range_when_inputs_in_range (e : EnsembleState)
    (mrs : List (String × PyModuleResult))
    (he : ensembleInRange e = true) (hs : scoresInRange mrs = true) :
    0 ≤ (fusionPredict e mrs).risk_score ∧ (fusionPredict e mrs).risk_score ≤ 100 ∧
      ∃ k : ℤ, (fusionPredict e mrs).risk_score = (k : ℚ) / 100 := by
  have hsc := scoresInRange_spec hs
  unfold fusionPredict
  split_ifs with h1 h2
  · exact ⟨by norm_num [dealBreaker1], by norm_num [dealBreaker1],
      ⟨7500, by norm_num [dealBreaker1]⟩⟩
  · exact ⟨by norm_num [dealBreaker2], by norm_num [dealBreaker2],
      ⟨7000, by norm_num [dealBreaker2]⟩⟩
  · obtain ⟨hml0, hml1⟩ := mlScorerPredict_bounds e mrs he hsc
    obtain ⟨ha0, ha1⟩ := avgModuleScore_bounds mrs hsc
    have hb : 0 ≤ (adaptiveBlend (mlScorerPredict e mrs) (avgModuleScore mrs)).2 ∧
        (adaptiveBlend (mlScorerPredict e mrs) (avgModuleScore mrs)).2 ≤ 100 := by
      unfold adaptiveBlend
      split_ifs <;> refine ⟨?_, ?_⟩ <;> dsimp only <;> linarith
    exact ⟨round2_nonneg hb.1, round2_le_100 hb.2, round2_form _⟩

/-- A single-module result set with a clean security module, used to expose
the missing clamp. -/
def c3mrs : List (String × PyModuleResult) := [("contract_security", ⟨some 0, []⟩)]

/-- Claim C3 counterexample: an adversarial ensemble value of 1000 drives
the returned final risk_score to 300, far outside [0,100] - the fusion
never clamps. -/
theorem c3_unclamped_score_300 :
    (fusionPredict (.value 1000) c3mrs).risk_score = 300 ∧
      100 < (fusionPredict (.value 1000) c3mrs).risk_score := by
  have hdb1 : ¬ db1cond c3mrs := by decide
  have hdb2 : ¬ db2cond c3mrs := by decide
  have htw : totalWeight c3mrs = 3 := by simp [totalWeight, moduleWeight, c3mrs]
  have hws : weightedScore c3mrs = 0 := by simp [weightedScore, moduleWeight, c3mrs]
  have havg : avgModuleScore c3mrs = 0 := by rw [avgModuleScore, htw, hws]; norm_num
  have hml : mlScorerPredict (.value 1000) c3mrs = 1000 := rfl
  have hblend : adaptiveBlend 1000 0 = (50, 300) := by
    unfold adaptiveBlend
    rw [if_neg (by norm_num), if_neg ?hc]
    · norm_num
    case hc =>
      rw [sub_zero, abs_of_nonneg (by norm_num : (0:ℚ) ≤ 1000)]
      norm_num
  have h300 : round2 (300 : ℚ) = 300 := by
    have h := round2_intCast 300; push_cast at h; exact h
  unfold fusionPredict
  rw [if_neg hdb1, if_neg hdb2, hml, havg, hblend]
  constructor
  · simpa using h300
  · show (100 : ℚ) < round2 300
    rw [h300]; norm_num

/-- Witness for the amended claim C3 at an in-range ensemble value. -/
theorem c3_range_when_inputs_in_range_witness :
    0 ≤ (fusionPredict (.value 50) c3mrs).risk_score ∧
      (fusionPredict (.value 50) c3mrs).risk_score ≤ 100 ∧
      ∃ k : ℤ, (fusionPredict (.value 50) c3mrs).risk_score = (k : ℚ) / 100 :=
  c3_range_when_inputs_in_range (.value 50) c3mrs (by decide) (by decide)

lemma fusionPredict_of_db1 (e : EnsembleState) (mrs : List (String × PyModuleResult))
    (h : db1cond mrs) : fusionPredict e mrs = dealBreaker1 := by
  unfold fusionPredict
  rw [if_pos h]

lemma fusionPredict_of_db2 (e : EnsembleState) (mrs : List (String × PyModuleResult))
    (hn : ¬ db1cond mrs) (h : db2cond mrs) : fusionPredict e mrs = dealBreaker2 := by
  unfold fusionPredict
  rw [if_neg hn, if_pos h]

/-- Claim C4 (amended): whenever the contract-security result has
risk_score >= 50 and a warning mentioning bytecode/obfuscation, the fusion
short-circuits to exactly risk_score 75 and confidence 90 irrespective of
every other module and of the ensemble - but the recorded reason string is
"Contract bytecode unavailable or obfuscated" (stored under the key
`reason`), not "bytecode unavailable or obfuscated". -/
theorem c4_bytecode_dealbreaker (e : EnsembleState)
    (mrs : List (String × PyModuleResult)) (h : db1cond mrs) :
    fusionPredict e mrs = dealBreaker1 ∧
    (fusionPredict e mrs).risk_score = 75 ∧
    (fusionPredict e mrs).confidence = 90 ∧
    (fusionPredict e mrs).reason = some "Contract bytecode unavailable or obfuscated" := by
  rw [fusionPredict_of_db1 e mrs h]
  exact ⟨rfl, rfl, rfl, rfl⟩

/-- The specification's end-to-end scenario for deal-breaker 1: security at
60 with a "bytecode obfuscated" warning, other modules extreme. -/
def c4mrs : List (String × PyModuleResult) :=
  [("contract_security", ⟨some 60, ["bytecode obfuscated"]⟩),
   ("liquidity_pool", ⟨some 0, []⟩), ("transfer_anomaly", ⟨some 100, []⟩)]

/-- Claim C4 counterexample: in that scenario the fusion does return 75/90,
but the reason string it stores is "Contract bytecode unavailable or
obfuscated", not the claimed "bytecode unavailable or obfuscated". -/
theorem c4_reason_string_differs :
    (fusionPredict .unavailable c4mrs).risk_score = 75 ∧
    (fusionPredict .unavailable c4mrs).confidence = 90 ∧
    (fusionPredict .unavailable c4mrs).reason ≠ some "bytecode unavailable or obfuscated" ∧
    (fusionPredict .unavailable c4mrs).reason =
      some "Contract bytecode unavailable or obfuscated" := by
  have he : fusionPredict .unavailable c4mrs = dealBreaker1 :=
    fusionPredict_of_db1 .unavailable c4mrs (by decide)
  rw [he]
  exact ⟨rfl, rfl, by decide, rfl⟩

/-- Witness for the amended claim C4. -/
theorem c4_bytecode_dealbreaker_witness :
    fusionPredict .unavailable c4mrs = dealBreaker1 ∧
    (fusionPredict .unavailable c4mrs).risk_score = 75 ∧
    (fusionPredict .unavailable c4mrs).confidence = 90 ∧
    (fusionPredict .unavailable c4mrs).reason =
      some "Contract bytecode unavailable or obfuscated" :=
  c4_bytecode_dealbreaker .unavailable c4mrs (by decide)

/-- Claim C9 (amended): when the bytecode deal-breaker does not fire and the
liquidity module scores >= 60 while the transfer-anomaly module scores
>= 30, the fusion returns exactly risk_score 70 and confidence 85
irrespective of the other modules and the ensemble - but the recorded
reason string is "Very low liquidity with no trading activity" (capital V,
stored under the key `reason`). -/
theorem c9_liquidity_dealbreaker (e : EnsembleState)
    (mrs : List (String × PyModuleResult)) (hn : ¬ db1cond mrs) (h : db2cond mrs) :
    fusionPredict e mrs = dealBreaker2 ∧
    (fusionPredict e mrs).risk_score = 70 ∧
    (fusionPredict e mrs).confidence = 85 ∧
    (fusionPredict e mrs).reason = some "Very low liquidity with no trading activity" := by
  rw [fusionPredict_of_db2 e mrs hn h]
  exact ⟨rfl, rfl, rfl, rfl⟩

/-- Scenario for deal-breaker 2: liquidity at 60, transfer anomaly at 30,
an extreme unrelated module, no bytecode warning. -/
def c9mrs : List (String × PyModuleResult) :=
  [("liquidity_pool", ⟨some 60, []⟩), ("transfer_anomaly", ⟨some 30, []⟩),
   ("holder_analysis", ⟨some 100, []⟩)]

/-- Claim C9 counterexample: the override fires with 70/85, but the reason
string is "Very low liquidity with no trading activity", not the claimed
all-lowercase "very low liquidity with no trading activity". -/
theorem c9_reason_capitalization :
    (fusionPredict .unavailable c9mrs).risk_score = 70 ∧
    (fusionPredict .unavailable c9mrs).confidence = 85 ∧
    (fusionPredict .unavailable c9mrs).reason ≠
      some "very low liquidity with no trading activity" ∧
    (fusionPredict .unavailable c9mrs).reason =
      some "Very low liquidity with no trading activity" := by
  have he : fusionPredict .unavailable c9mrs = dealBreaker2 :=
    fusionPredict_of_db2 .unavailable c9mrs (by decide) (by decide)
  rw [he]
  exact ⟨rfl, rfl, by decide, rfl⟩

/-- Witness for the amended claim C9. -/
theorem c9_liquidity_dealbreaker_witness :
    fusionPredict .unavailable c9mrs = dealBreaker2 ∧
    (fusionPredict .unavailable c9mrs).risk_score = 70 ∧
    (fusionPredict .unavailable c9mrs).confidence = 85 ∧
    (fusionPredict .unavailable c9mrs).reason =
      some "Very low liquidity with no trading activity" :=
  c9_liquidity_dealbreaker .unavailable c9mrs (by decide) (by decide)

/-- Claim C5: the honeypot verdict and its confidence label are a pure
function of the ordered step outcomes - the transfer outcome is never
consulted - and they follow exactly the specified table: sell skipped and
buy ok gives SAFE/medium; sell skipped and buy failed gives LOCKED/high;
buy and sell ok gives SAFE/high; buy ok and sell failed gives
HONEYPOT/very_high; both failed gives LOCKED/high; the remaining
combination (buy failed, sell ok) gives SUSPICIOUS/medium. -/
theorem c5_verdict_table_deterministic (b s : Bool) (m : String)
    (t t' : TransferOutcome) :
    verdictOf b s m t = verdictOf b s m t' ∧
    verdictOf b s m t = specVerdictTable b (strContainsSub (pyLower m) "skipped") s := by
  refine ⟨rfl, ?_⟩
  unfold verdictOf specVerdictTable
  cases b <;> cases s <;> cases hk : strContainsSub (pyLower m) "skipped" <;> simp

/-- Claim C6 (amended): `simulate_sell` performs no major-liquidity-pool
classification at all - it receives no liquidity hint and never inspects the
holder's balance when interpreting a revert: every swap revert reason,
including `transfer_from_failed`, "exceeds balance" and "insufficient
allowance", is reported as a genuine sell failure for every holder. -/
theorem c6_swap_revert_always_fails (env : SellEnv) (r : String)
    (hHolder : (env.holderParam.orElse fun _ => env.foundHolder).isSome = true)
    (hSetup : env.setupError = none)
    (hApprove : isRevert (env.approveOutcome (sellAmount env.balanceOutcome)) = false)
    (hBuild : env.swapBuildError = none)
    (hSwap : env.swapOutcome (sellAmount env.balanceOutcome) = .revert r) :
    simulate_sell env =
      (false, "❌ Sell FAILED: " ++ parse_revert_reason r ++ " (HONEYPOT!)", none) := by
  unfold simulate_sell
  rcases hOr : env.holderParam.orElse fun _ => env.foundHolder with _ | x
  · rw [hOr] at hHolder; simp at hHolder
  · dsimp only
    rw [hSetup]
    dsimp only
    cases hA : env.approveOutcome (sellAmount env.balanceOutcome) with
    | revert d => rw [hA] at hApprove; simp [isRevert] at hApprove
    | success =>
      dsimp only
      rw [hBuild]
      dsimp only
      rw [hSwap]
    | exn m =>
      dsimp only
      rw [hBuild]
      dsimp only
      rw [hSwap]

/-- The specification's major-pool scenario: a holder with a 50,000-token
balance whose swap reverts with "insufficient allowance". -/
def c6env : SellEnv :=
  { holderParam := some "0x0000000000000000000000000000000000000002",
    foundHolder := none,
    balanceOutcome := some (50000 * 10 ^ 18),
    approveOutcome := fun _ => .success,
    swapBuildError := none,
    swapOutcome := fun _ => .revert "insufficient allowance",
    swapGasEstimate := fun _ => none,
    setupError := none }

/-- Claim C6 counterexample: for the huge holder with revert reason
"insufficient allowance" the sell is reported as a failure - the claimed
override to success does not exist - and dropping the balance to one wei
changes nothing, so no major/minor distinction is made. -/
theorem c6_major_pool_not_overridden :
    (simulate_sell c6env).1 = false ∧
    (simulate_sell { c6env with balanceOutcome := some 1 }).1 = false ∧
    simulate_sell c6env = simulate_sell { c6env with balanceOutcome := some 1 } := by
  refine ⟨rfl, rfl, rfl⟩

/-- Witness for the amended claim C6 at the major-pool scenario. -/
theorem c6_swap_revert_always_fails_witness :
    simulate_sell c6env =
      (false, "❌ Sell FAILED: " ++ parse_revert_reason "insufficient allowance" ++
        " (HONEYPOT!)", none) :=
  c6_swap_revert_always_fails c6env "insufficient allowance" rfl rfl rfl rfl rfl

/-- Claim C7 (amended): the sell simulation approves and then swaps 50%
(integer half) of the discovered holder's balance - not 10%; a zero or
unreadable balance is first replaced by 100 * 10^18 wei, and a zero half by
10^18 wei. -/
theorem c7_sell_amount_half (b : Nat) (h : 2 ≤ b) : sellAmount (some b) = b / 2 := by
  simp only [sellAmount]
  split_ifs <;> omega

/-- Claim C7 counterexample: for a holder balance of 100 base units the
simulation sells 50 of them, not the claimed 10% (which would be 10). -/
theorem c7_sells_half_not_tenth :
    sellAmount (some 100) = 50 ∧ sellAmount (some 100) ≠ 100 / 10 := by decide

/-- Witness for the amended claim C7 at balance 100. -/
theorem c7_sell_amount_half_witness : sellAmount (some 100) = 100 / 2 :=
  c7_sell_amount_half 100 (by decide)

/-- Claim C8 (amended): in the buy simulation a reverted call yields
success = false with the parsed revert reason, and every other exception
from the call - including an insufficient-funds error - also yields
success = false with the truncated exception text: the source has no
insufficient-funds success exemption. -/
theorem c8_buy_failure_classification (env : BuyEnv) (hs : env.setupError = none) :
    (∀ d, env.callOutcome = .revert d →
        simulate_buy env = (false, "❌ Buy FAILED: " ++ parse_revert_reason d, none)) ∧
    (∀ m, env.callOutcome = .exn m →
        simulate_buy env = (false, "❌ Buy simulation error: " ++ pyTruncate m 100, none)) := by
  constructor <;> intro x hx <;> simp only [simulate_buy, hs, hx]

/-- A buy whose `eth_call` raises a (non-revert) insufficient-funds error. -/
def c8env : BuyEnv :=
  ⟨none, .exn "insufficient funds for gas * price + value", none⟩

/-- Claim C8 counterexample: an insufficient-funds class exception makes the
buy report success = false, not the claimed success = true. -/
theorem c8_insufficient_funds_not_success :
    (simulate_buy c8env).1 = false := by decide

/-- Witness for the amended claim C8 at the insufficient-funds exception. -/
theorem c8_buy_failure_classification_witness :
    simulate_buy c8env =
      (false, "❌ Buy simulation error: " ++
        pyTruncate "insufficient funds for gas * price + value" 100, none) :=
  (c8_buy_failure_classification c8env rfl).2 "insufficient funds for gas * price + value" rfl

/-- Claim C10: in `_run_modules`, a successfully returned contract-security
result with risk_score 0 (or missing) and no warnings is overwritten to
risk_score 50 with non-empty explanatory warnings, and the rule leaves the
result of every other module unchanged. -/
theorem c10_security_zero_risk_override (mods : List (String × PyCall OrchModuleDict))
    (name : String) (r : OrchModuleDict) (hmem : (name, PyCall.ok r) ∈ mods) :
    (name, consistencyRule name r) ∈ runModules mods ∧
    (name = "contract_security" → r.risk_score.getD 0 = 0 → r.warnings = [] →
      (consistencyRule name r).risk_score = some 50 ∧
        (consistencyRule name r).warnings ≠ []) ∧
    (name ≠ "contract_security" → consistencyRule name r = r) := by
  refine ⟨?_, ?_, ?_⟩
  · have h := List.mem_map_of_mem
      (f := fun p : String × PyCall OrchModuleDict =>
        (p.1, match p.2 with
              | .ok r => consistencyRule p.1 r
              | .raises e => moduleFailureDict e)) hmem
    simpa [runModules] using h
  · intro h1 h2 h3
    rw [consistencyRule, if_pos ⟨h1, h2, h3⟩]
    exact ⟨rfl, by simp [suspiciousBytecodeWarnings]⟩
  · intro hne
    rw [consistencyRule, if_neg (fun hc => hne hc.1)]

/-- Modules for the C10 witness: a clean-zero security module and a
clean-zero unrelated module. -/
def c10mods : List (String × PyCall OrchModuleDict) :=
  [("contract_security", .ok ⟨some 0, [], none⟩), ("tokenomics", .ok ⟨some 0, [], none⟩)]

/-- Witness for claim C10: the security result is overwritten to 50 with
warnings, the tokenomics result is untouched. -/
theorem c10_security_zero_risk_override_witness :
    ("contract_security",
        consistencyRule "contract_security" ⟨some 0, [], none⟩) ∈ runModules c10mods ∧
    (consistencyRule "contract_security"
        (⟨some 0, [], none⟩ : OrchModuleDict)).risk_score = some 50 ∧
    (consistencyRule "contract_security"
        (⟨some 0, [], none⟩ : OrchModuleDict)).warnings ≠ [] ∧
    consistencyRule "tokenomics" (⟨some 0, [], none⟩ : OrchModuleDict) =
      ⟨some 0, [], none⟩ := by
  have h1 := c10_security_zero_risk_override c10mods "contract_security"
    ⟨some 0, [], none⟩ (by simp [c10mods])
  have h2 := c10_security_zero_risk_override c10mods "tokenomics"
    ⟨some 0, [], none⟩ (by simp [c10mods])
  have h3 := h1.2.1 rfl (by norm_num) rfl
  exact ⟨h1.1, h3.1, h3.2, h2.2.2 (by decide)⟩
